import Mathlib

/-!
Verification of the ICD diagnosis extraction pipeline
(term-to-code resolution and extraction-quality evaluation).

The embedded functions mirror, statement by statement:
  * `ICD10Mapper.__init__` / `map_terms_to_codes` / `get_icd10_code`
    (src/src/utils/icd10mapper.py and src/src/utils.py — the two copies
    of the class are textually identical),
  * `map_diagnosis_to_icd10` (src/src/utils.py),
  * `ICDDiagnosisExtractor.evaluate_extraction`
    (src/src/utils/icd_extraction_pipeline.py).

Python dictionaries preserve insertion order, so `self.mapping` is
embedded as an association list in definition order.  Python's
`needle in haystack` on strings is substring containment (with the
empty string contained in everything); it is embedded as `strOccurs`.
Python floats are embedded as rationals.  A Python `dict` whose keys
are present only on some branches is embedded as a structure with
`Option` fields; `None` arguments are embedded as `Option` and a
`TypeError` raised on iterating `None` as `Except`.
-/

/-- Whether `needle` occurs at the start of `hay` (character lists). -/
def matchAt : List Char → List Char → Bool
  | [], _ => true
  | _ :: _, [] => false
  | c :: cs, d :: ds => c == d && matchAt cs ds

/-- Whether `needle` occurs contiguously anywhere in `hay` (character lists). -/
def occursIn (needle : List Char) : List Char → Bool
  | [] => needle.isEmpty
  | d :: ds => matchAt needle (d :: ds) || occursIn needle ds

/-- Embedding of Python's `needle in hay` on strings: substring containment. -/
def strOccurs (needle hay : String) : Bool :=
  occursIn needle.toList hay.toList

/-- Embedding of Python's `str.lower()`: lowercase every character.  (The
mapping keys and the inputs exercised by the pipeline are ASCII, where
`Char.toLower` agrees with Python.) -/
def strLower (s : String) : String :=
  String.mk (s.toList.map Char.toLower)

/-- The `self.mapping` dictionary of `ICD10Mapper.__init__`, in definition
order.  Identical in src/src/utils/icd10mapper.py and src/src/utils.py. -/
def icd10Mapping : List (String × String) :=
  [ ("hypertension", "I10"),
    ("essential (primary) hypertension", "I10"),
    ("secondary hypertension", "I15"),
    ("hypertensive heart disease", "I11"),
    ("hypertensive chronic kidney disease", "I12"),
    ("hypertensive heart and chronic kidney disease", "I13"),
    ("hypertensive crisis", "I16"),
    ("heart failure", "I50"),
    ("acute myocardial infarction", "I21"),
    ("chronic ischemic heart disease", "I25"),
    ("angina pectoris", "I20"),
    ("atrial fibrillation", "I48"),
    ("cardiac arrhythmia", "I49"),
    ("pneumonia", "J18.9"),
    ("community-acquired pneumonia", "J18.9"),
    ("chronic obstructive pulmonary disease", "J44"),
    ("asthma", "J45"),
    ("acute bronchitis", "J20.9"),
    ("influenza", "J11.1"),
    ("type 1 diabetes mellitus", "E10"),
    ("type 2 diabetes mellitus", "E11"),
    ("diabetes mellitus", "E14"),
    ("diabetes with neurological complications", "E10.4"),
    ("diabetes with renal complications", "E10.2"),
    ("diabetes with ophthalmic complications", "E10.3"),
    ("thyroid disorder", "E07.9"),
    ("stroke", "I63"),
    ("cerebral infarction", "I63"),
    ("hemorrhagic stroke", "I61"),
    ("transient ischemic attack", "G45.9"),
    ("epilepsy", "G40"),
    ("dementia", "F03"),
    ("alzheimer disease", "G30.9"),
    ("chronic kidney disease", "N18"),
    ("acute kidney failure", "N17"),
    ("kidney failure", "N19"),
    ("nephritis", "N05"),
    ("major depressive disorder", "F33"),
    ("depression", "F33"),
    ("anxiety disorder", "F41.9"),
    ("generalized anxiety disorder", "F41.1"),
    ("schizophrenia", "F20"),
    ("osteoarthritis", "M19.9"),
    ("rheumatoid arthritis", "M06.9"),
    ("back pain", "M54.5"),
    ("neck pain", "M54.2"),
    ("gastroesophageal reflux disease", "K21.9"),
    ("peptic ulcer", "K27.9"),
    ("gastritis", "K29.7"),
    ("cirrhosis", "K74.6"),
    ("sepsis", "A41.9"),
    ("urinary tract infection", "N39.0"),
    ("cellulitis", "L03.9"),
    ("osteomyelitis", "M86.9"),
    ("lung cancer", "C34.9"),
    ("breast cancer", "C50.9"),
    ("colon cancer", "C18.9"),
    ("prostate cancer", "C61"),
    ("skin cancer", "C44.9"),
    ("fever", "R50.9"),
    ("headache", "R51"),
    ("chest pain", "R06.02"),
    ("shortness of breath", "R06.02"),
    ("cough", "R05"),
    ("abdominal pain", "R10.13"),
    ("fatigue", "R53.83"),
    ("nausea", "R11.0"),
    ("vomiting", "R11.10"),
    ("electrocardiogram", "Z51.89"),
    ("chest x-ray", "Z03.89"),
    ("blood test", "Z03.89"),
    ("epistaxis", "R04.0"),
    ("syncope", "R55"),
    ("dizziness", "R42"),
    ("insomnia", "G47.00"),
    ("constipation", "K59.00"),
    ("diarrhea", "K59.1"),
    ("obesity", "E66.9"),
    ("overweight", "E66.3"),
    ("malnutrition", "E46"),
    ("anemia", "D64.9"),
    ("hyperlipidemia", "E78.5"),
    ("hypothyroidism", "E03.9"),
    ("hyperthyroidism", "E05.90") ]

/-- One pass of the inner loop of `map_terms_to_codes` over the mapping
for a single `term`: `if key in term_lower and code not in codes:
codes.append(code)` for each `(key, code)` of the mapping in order. -/
def scanTerm (mapping : List (String × String)) (codes : List String)
    (term : String) : List String :=
  mapping.foldl
    (fun cs kc =>
      if strOccurs kc.1 (strLower term) ∧ kc.2 ∉ cs then cs ++ [kc.2]
      else cs)
    codes

/-- Embedding of `ICD10Mapper.map_terms_to_codes`: the outer loop over
`terms`, threading the `codes` accumulator, starting from `codes = []`. -/
def map_terms_to_codes (mapping : List (String × String))
    (terms : List String) : List String :=
  terms.foldl (scanTerm mapping) []

/-- Embedding of calling `ICD10Mapper.map_terms_to_codes` with an argument
that may be `None`: the body begins with `for term in terms`, and iterating
`None` raises a `TypeError`, embedded as `Except.error`. -/
def map_terms_to_codes_checked (mapping : List (String × String))
    (terms : Option (List String)) : Except String (List String) :=
  match terms with
  | none => Except.error "TypeError: NoneType object is not iterable"
  | some ts => Except.ok (map_terms_to_codes mapping ts)

/-- Embedding of the standalone helper `map_diagnosis_to_icd10` of
src/src/utils.py.  `if entities:` skips the loop when `entities` is `None`
or empty; the nested loop is identical to `map_terms_to_codes`; the final
`return list(set(icd_codes))` returns the accumulated codes in an
implementation-defined order, so only its set of elements is defined and
the embedding returns that set. -/
def map_diagnosis_to_icd10 (entities : Option (List String))
    (mapping : List (String × String)) : Finset String :=
  let icd_codes : List String :=
    match entities with
    | none => []
    | some es => if es.isEmpty then [] else es.foldl (scanTerm mapping) []
  icd_codes.toFinset

/-- Embedding of the inner loop of `ICD10Mapper.get_icd10_code`
(src/src/utils.py): return the first code whose key is contained in the
(already lowercased) term, else `None`. -/
def lookupLoop : List (String × String) → String → Option String
  | [], _ => none
  | kc :: rest, tl => if strOccurs kc.1 tl then some kc.2 else lookupLoop rest tl

/-- Embedding of `ICD10Mapper.get_icd10_code` (src/src/utils.py). -/
def get_icd10_code (mapping : List (String × String)) (term : String) :
    Option String :=
  lookupLoop mapping (strLower term)

/-- One row of the results DataFrame handed to `evaluate_extraction`.
`entities` embeds the `entities_detected` cell, which the code checks with
`entities is not None and isinstance(entities, list)`; `ground_truth`
embeds the `diagnosis_ground_truth` cell, `none` standing for a value that
fails `pd.notna` (NaN / None). -/
structure ResultRow where
  entities : Option (List String)
  ground_truth : Option String
  deriving DecidableEq

/-- The lowercased ground-truth string of a row:
`str(row[ground_truth_col]).lower() if pd.notna(...) else ""`. -/
def gtLower (r : ResultRow) : String :=
  match r.ground_truth with
  | some g => strLower g
  | none => ""

/-- The per-row match test of `evaluate_extraction`: the row contributes to
`matches` exactly when its entity cell is a non-empty list and the inner
loop `for entity in entities: if entity and entity.lower() in ground_truth`
finds a truthy (non-empty) entity contained in the lowercased ground truth
(the `break` makes one row count at most once). -/
def rowMatched (r : ResultRow) : Bool :=
  match r.entities with
  | none => false
  | some es => es.any fun e => !(e == "") && strOccurs (strLower e) (gtLower r)

/-- The dictionary returned by `evaluate_extraction`.  The empty-batch
early return produces only the `accuracy` and `total_records` keys, so the
two count fields are `Option`s — `none` means the key is absent. -/
structure EvalMetrics where
  accuracy : ℚ
  total_records : ℕ
  correctly_matched_records : Option ℕ
  incorrectly_matched_records : Option ℕ
  deriving DecidableEq

/-- Embedding of `ICDDiagnosisExtractor.evaluate_extraction`
(src/src/utils/icd_extraction_pipeline.py, lines 123–160). -/
def evaluate_extraction (results : List ResultRow) : EvalMetrics :=
  let total_records := results.length
  if total_records = 0 then
    { accuracy := 0, total_records := 0,
      correctly_matched_records := none,
      incorrectly_matched_records := none }
  else
    let matchCount := results.countP fun r => rowMatched r
    { accuracy := (matchCount : ℚ) / (total_records : ℚ) * 100,
      total_records := total_records,
      correctly_matched_records := some matchCount,
      incorrectly_matched_records := some (total_records - matchCount) }

/-- The row loop of `evaluate_extraction` in state-passing form: it threads
the match counter and reproduces the rows it visited, making explicit that
iteration only reads the batch. -/
def evalRows (results : List ResultRow) : ℕ × List ResultRow :=
  results.foldl
    (fun acc r => (acc.1 + (if rowMatched r then 1 else 0), acc.2 ++ [r]))
    (0, [])

/-- State-passing form of `evaluate_extraction`: returns the metrics
together with the batch as it stands after the evaluation pass. -/
def evaluate_extraction_st (results : List ResultRow) :
    EvalMetrics × List ResultRow :=
  if results.length = 0 then
    ({ accuracy := 0, total_records := 0,
       correctly_matched_records := none,
       incorrectly_matched_records := none }, results)
  else
    let p := evalRows results
    ({ accuracy := (p.1 : ℚ) / (results.length : ℚ) * 100,
       total_records := results.length,
       correctly_matched_records := some p.1,
       incorrectly_matched_records := some (results.length - p.1) }, p.2)

/-- Rounding to two decimal places, as in the spec's scenario statement
"accuracy = 66.67 (rounded to 2 decimals)". -/
def roundTo2 (q : ℚ) : ℚ :=
  (round (q * 100) : ℤ) / 100

/-- The flat list of codes produced by scanning the entities in sequence
order and, inside each entity, the mapping entries in definition order —
the scan order of `map_terms_to_codes`, before deduplication. -/
def scanCodes (mapping : List (String × String)) (terms : List String) :
    List String :=
  (terms.map fun t =>
    (mapping.filter fun kc => strOccurs kc.1 (strLower t)).map
      fun kc => kc.2).flatten

/-- Append `c` unless it is already present — the `if code not in codes:
codes.append(code)` step, with the containment test already decided. -/
def insertNew (acc : List String) (c : String) : List String :=
  if c ∈ acc then acc else acc ++ [c]

/-- Keep the first occurrence of each element, in order of first
occurrence. -/
def dedupFirst (l : List String) : List String :=
  l.foldl insertNew []

/-- A row realizing the spec's Scenario 3: detected `["pneumonia"]`,
ground truth present; it is matched. -/
def rowPneu : ResultRow :=
  { entities := some ["pneumonia"],
    ground_truth := some "Community-acquired pneumonia, Hypertension stage 2" }

/-- A matched row with a capitalized detected entity. -/
def rowEpis : ResultRow :=
  { entities := some ["Epistaxis"],
    ground_truth := some "Essential (primary) hypertension, Epistaxis" }

/-- A row realizing the spec's Scenario 4: ground truth absent; it is
unmatched. -/
def rowFever : ResultRow :=
  { entities := some ["fever"], ground_truth := none }

/-- A row whose only detected entity is the empty string, against a
present non-empty ground truth. -/
def rowEmptyEntity : ResultRow :=
  { entities := some [""], ground_truth := some "fever" }

example : map_terms_to_codes icd10Mapping ["Essential hypertension", "Epistaxis"]
    = ["I10", "R04.0"] := by decide
example : map_terms_to_codes icd10Mapping ["heatstroke"] = ["I63"] := by decide
example : get_icd10_code icd10Mapping "Community-acquired pneumonia"
    = some "J18.9" := by decide

lemma scanTerm_cons (kc : String × String) (m : List (String × String))
    (codes : List String) (t : String) :
    scanTerm (kc :: m) codes t
      = scanTerm m
          (if strOccurs kc.1 (strLower t) ∧ kc.2 ∉ codes
           then codes ++ [kc.2] else codes) t := rfl

lemma scanStep_eq (codes : List String) (c : String) (b : Bool) :
    (if b ∧ c ∉ codes then codes ++ [c] else codes)
      = if b then insertNew codes c else codes := by
  cases b
  · simp
  · by_cases hm : c ∈ codes <;> simp [insertNew, hm]

lemma scanTerm_eq (m : List (String × String)) (t : String) :
    ∀ codes : List String,
    scanTerm m codes t
      = List.foldl insertNew codes
          ((m.filter fun kc => strOccurs kc.1 (strLower t)).map
            fun kc => kc.2) := by
  induction m with
  | nil => intro codes; rfl
  | cons kc m ih =>
    intro codes
    rw [scanTerm_cons, scanStep_eq, ih]
    cases h : strOccurs kc.1 (strLower t) <;>
      simp [h, List.filter_cons]

lemma foldl_insertNew_mem (l : List String) :
    ∀ (acc : List String) (c : String),
    c ∈ List.foldl insertNew acc l ↔ c ∈ acc ∨ c ∈ l := by
  induction l with
  | nil => simp
  | cons a l ih =>
    intro acc c
    rw [List.foldl_cons, ih]
    by_cases hm : a ∈ acc
    · simp only [insertNew, if_pos hm, List.mem_cons]
      constructor
      · tauto
      · rintro (h | rfl | h) <;> tauto
    · simp only [insertNew, if_neg hm, List.mem_append,
        List.mem_singleton, List.mem_cons]
      tauto

lemma foldl_insertNew_nodup (l : List String) :
    ∀ acc : List String, acc.Nodup → (List.foldl insertNew acc l).Nodup := by
  induction l with
  | nil => intro acc h; exact h
  | cons a l ih =>
    intro acc h
    rw [List.foldl_cons]
    apply ih
    by_cases hm : a ∈ acc
    · simpa [insertNew, hm] using h
    · simp [insertNew, hm, List.nodup_append, h]

lemma scanCodes_cons (m : List (String × String)) (t : String)
    (ts : List String) :
    scanCodes m (t :: ts)
      = ((m.filter fun kc => strOccurs kc.1 (strLower t)).map fun kc => kc.2)
          ++ scanCodes m ts := by
  simp [scanCodes]

lemma foldl_scanTerm_eq (m : List (String × String)) (ts : List String) :
    ∀ codes : List String,
    List.foldl (scanTerm m) codes ts
      = List.foldl insertNew codes (scanCodes m ts) := by
  induction ts with
  | nil => intro codes; rfl
  | cons t ts ih =>
    intro codes
    rw [List.foldl_cons, ih, scanTerm_eq, scanCodes_cons, List.foldl_append]

lemma map_terms_to_codes_eq_dedupFirst (m : List (String × String))
    (ts : List String) :
    map_terms_to_codes m ts = dedupFirst (scanCodes m ts) := by
  rw [map_terms_to_codes, foldl_scanTerm_eq]; rfl

lemma mem_scanCodes (m : List (String × String)) (ts : List String)
    (c : String) :
    c ∈ scanCodes m ts
      ↔ ∃ t ∈ ts, ∃ kc ∈ m, strOccurs kc.1 (strLower t) = true ∧ kc.2 = c := by
  simp only [scanCodes, List.mem_flatten, List.mem_map]
  constructor
  · rintro ⟨l, ⟨t, ht, rfl⟩, hc⟩
    rw [List.mem_map] at hc
    obtain ⟨kc, hkc, rfl⟩ := hc
    rw [List.mem_filter] at hkc
    exact ⟨t, ht, kc, hkc.1, hkc.2, rfl⟩
  · rintro ⟨t, ht, kc, hkc, hocc, rfl⟩
    refine ⟨_, ⟨t, ht, rfl⟩, ?_⟩
    rw [List.mem_map]
    exact ⟨kc, List.mem_filter.2 ⟨hkc, hocc⟩, rfl⟩

lemma mem_map_terms_to_codes (m : List (String × String)) (ts : List String)
    (c : String) :
    c ∈ map_terms_to_codes m ts
      ↔ ∃ t ∈ ts, ∃ kc ∈ m, strOccurs kc.1 (strLower t) = true ∧ kc.2 = c := by
  rw [map_terms_to_codes_eq_dedupFirst, dedupFirst, foldl_insertNew_mem,
    mem_scanCodes]
  simp

/-- C3: a code is returned by the resolver exactly when some mapping entry
has its canonical term contained in the lowercasing of some input entity —
soundness and completeness of `map_terms_to_codes` over the built-in
table. -/
theorem map_terms_to_codes_sound_complete (terms : List String) (c : String) :
    c ∈ map_terms_to_codes icd10Mapping terms
      ↔ ∃ kc ∈ icd10Mapping, kc.2 = c
          ∧ ∃ t ∈ terms, strOccurs kc.1 (strLower t) = true := by
  rw [mem_map_terms_to_codes]
  constructor
  · rintro ⟨t, ht, kc, hkc, hocc, rfl⟩
    exact ⟨kc, hkc, rfl, t, ht, hocc⟩
  · rintro ⟨kc, hkc, rfl, t, ht, hocc⟩
    exact ⟨t, ht, kc, hkc, hocc, rfl⟩

/-- C4: the resolver returns a duplicate-free list, equal to the
first-occurrence deduplication of the scan over entities in sequence order
and mapping entries in definition order. -/
theorem map_terms_to_codes_nodup_first_occurrence (terms : List String) :
    (map_terms_to_codes icd10Mapping terms).Nodup
    ∧ map_terms_to_codes icd10Mapping terms
        = dedupFirst (scanCodes icd10Mapping terms) := by
  refine ⟨?_, map_terms_to_codes_eq_dedupFirst _ _⟩
  rw [map_terms_to_codes_eq_dedupFirst, dedupFirst]
  exact foldl_insertNew_nodup _ [] List.nodup_nil

/-- C5 counterexample: calling `map_terms_to_codes` with `None` does not
return an empty code set — iterating `None` raises a `TypeError`
(`Except.error` in the embedding). -/
theorem map_terms_to_codes_none_raises :
    map_terms_to_codes_checked icd10Mapping none
      = Except.error "TypeError: NoneType object is not iterable" := rfl

/-- C5 as amended: an empty entity sequence yields an empty code set
without error in both resolver implementations, and
`map_diagnosis_to_icd10` also maps `None` to the empty set; but
`ICD10Mapper.map_terms_to_codes` applied to `None` raises a `TypeError`
instead of returning an empty set. -/
theorem resolve_empty_and_none_behavior :
    map_terms_to_codes icd10Mapping [] = []
    ∧ map_terms_to_codes_checked icd10Mapping (some []) = Except.ok []
    ∧ map_diagnosis_to_icd10 none icd10Mapping = ∅
    ∧ map_diagnosis_to_icd10 (some []) icd10Mapping = ∅
    ∧ ∃ msg, map_terms_to_codes_checked icd10Mapping none
        = Except.error msg :=
  ⟨rfl, rfl, rfl, rfl, _, rfl⟩

lemma lookupLoop_eq_find (m : List (String × String)) (tl : String) :
    lookupLoop m tl
      = (m.find? fun kc => strOccurs kc.1 tl).map fun kc => kc.2 := by
  induction m with
  | nil => rfl
  | cons kc m ih =>
    rw [lookupLoop, List.find?_cons]
    cases h : strOccurs kc.1 tl <;> simp [h, ih]

/-- C7: single-code lookup returns the code of the first mapping entry in
table definition order whose canonical term is contained in the lowercased
input term, and returns `none` exactly when no entry's canonical term is
contained in it. -/
theorem get_icd10_code_first_match (term : String) :
    get_icd10_code icd10Mapping term
      = (icd10Mapping.find? fun kc => strOccurs kc.1 (strLower term)).map
          (fun kc => kc.2)
    ∧ (get_icd10_code icd10Mapping term = none
        ↔ ∀ kc ∈ icd10Mapping, strOccurs kc.1 (strLower term) = false) := by
  refine ⟨lookupLoop_eq_find _ _, ?_⟩
  rw [get_icd10_code, lookupLoop_eq_find, Option.map_eq_none',
    List.find?_eq_none]
  simp

/-- C10: on any non-null entity list, the standalone helper
`map_diagnosis_to_icd10` with the built-in mapping returns the same set of
codes as `ICD10Mapper.map_terms_to_codes` — the two resolvers are
extensionally equivalent up to ordering. -/
theorem map_diagnosis_eq_map_terms_as_sets (es : List String) :
    map_diagnosis_to_icd10 (some es) icd10Mapping
      = (map_terms_to_codes icd10Mapping es).toFinset := by
  cases es <;> rfl

lemma toList_mk (l : List Char) : (String.mk l).toList = l := rfl

lemma strLower_toList_ne_nil {e : String} (h : e ≠ "") :
    (strLower e).toList ≠ [] := by
  have he : e.toList ≠ [] := by
    cases e with
    | mk data => simpa [String.ext_iff] using h
  simp only [strLower, toList_mk, ne_eq, List.map_eq_nil_iff]
  exact he

lemma strOccurs_empty_hay_of_ne {e : String} (h : e ≠ "") :
    strOccurs (strLower e) "" = false := by
  rw [strOccurs]
  cases hll : (strLower e).toList with
  | nil => exact absurd hll (strLower_toList_ne_nil h)
  | cons c cs => rfl

lemma rowMatched_of_gtLower_empty (r : ResultRow) (h : gtLower r = "") :
    rowMatched r = false := by
  rw [rowMatched]
  cases he : r.entities with
  | none => rfl
  | some es =>
    rw [List.any_eq_false]
    intro e he'
    by_cases h0 : e = ""
    · simp [h0]
    · rw [h]
      simp [strOccurs_empty_hay_of_ne h0]

lemma evalRows_aux (b : List ResultRow) :
    ∀ (n : ℕ) (l : List ResultRow),
    b.foldl
        (fun acc r => (acc.1 + (if rowMatched r then 1 else 0), acc.2 ++ [r]))
        (n, l)
      = (n + b.countP (fun r => rowMatched r), l ++ b) := by
  induction b with
  | nil => intro n l; simp
  | cons r b ih =>
    intro n l
    rw [List.foldl_cons, ih]
    simp only [Prod.mk.injEq, List.countP_cons]
    constructor
    · cases h : rowMatched r <;> simp [h]; omega
    · simp

lemma evalRows_eq (b : List ResultRow) :
    evalRows b = (b.countP fun r => rowMatched r, b) := by
  rw [evalRows, evalRows_aux]
  simp

/-- C1 counterexample: a record whose only detected entity is the empty
string, with ground truth `"fever"`.  The empty string, lowercased, occurs
as a substring of the lowercased ground truth, yet `evaluate_extraction`
counts the record as unmatched, because the inner loop requires the entity
to be truthy (`if entity and ...`). -/
theorem evaluate_empty_entity_not_matched :
    strOccurs (strLower "") (gtLower rowEmptyEntity) = true
    ∧ rowMatched rowEmptyEntity = false
    ∧ (evaluate_extraction [rowEmptyEntity]).correctly_matched_records
        = some 0 := by decide

/-- C1 as amended: for every non-empty batch, `evaluate_extraction` counts
exactly the rows satisfying `rowMatched`; and a row is matched if and only
if its entity cell is a list containing at least one non-empty entity
string whose lowercasing occurs as a substring of the lowercased ground
truth.  A row whose ground truth is absent or empty is unmatched, and no
input raises an error (the embedding is a total function). -/
theorem evaluate_matched_iff (b : List ResultRow) (hb : b ≠ []) :
    (evaluate_extraction b).correctly_matched_records
        = some (b.countP fun r => rowMatched r)
    ∧ ∀ r : ResultRow,
      (rowMatched r = true
        ↔ ∃ es, r.entities = some es
            ∧ ∃ e ∈ es, ¬e = "" ∧ strOccurs (strLower e) (gtLower r) = true)
      ∧ (r.ground_truth = none → rowMatched r = false)
      ∧ (r.ground_truth = some "" → rowMatched r = false) := by
  have h : b.length ≠ 0 := by simpa [List.length_eq_zero] using hb
  refine ⟨by rw [evaluate_extraction]; simp [h], ?_⟩
  intro r
  refine ⟨?_, ?_, ?_⟩
  · rw [rowMatched]
    cases he : r.entities with
    | none => simp [he]
    | some es => simp [he, List.any_eq_true]
  · intro hgt
    exact rowMatched_of_gtLower_empty r (by simp [gtLower, hgt])
  · intro hgt
    exact rowMatched_of_gtLower_empty r (by simp [gtLower, hgt, strLower])

/-- Witness for the amended C1 theorem at a concrete one-row batch. -/
theorem evaluate_matched_iff_witness :
    ([rowPneu] : List ResultRow) ≠ []
    ∧ (evaluate_extraction [rowPneu]).correctly_matched_records
        = some (List.countP (fun r => rowMatched r) [rowPneu]) :=
  ⟨by decide, (evaluate_matched_iff [rowPneu] (by decide)).1⟩

/-- C2: the empty batch yields accuracy `0` and `total_records = 0` with no
division fault, and on every non-empty batch the accuracy equals
`matched / total × 100`. -/
theorem evaluate_empty_and_accuracy_formula :
    (evaluate_extraction []).accuracy = 0
    ∧ (evaluate_extraction []).total_records = 0
    ∧ ∀ b : List ResultRow, b ≠ [] →
        (evaluate_extraction b).accuracy
          = ((b.countP fun r => rowMatched r : ℕ) : ℚ) / (b.length : ℚ) * 100 := by
  refine ⟨rfl, rfl, ?_⟩
  intro b hb
  have h : b.length ≠ 0 := by simpa [List.length_eq_zero] using hb
  rw [evaluate_extraction]
  simp [h]

/-- Witness for the C2 theorem at a concrete one-row batch. -/
theorem evaluate_empty_and_accuracy_formula_witness :
    ([rowFever] : List ResultRow) ≠ []
    ∧ (evaluate_extraction [rowFever]).accuracy
        = ((List.countP (fun r => rowMatched r) [rowFever] : ℕ) : ℚ)
            / (([rowFever] : List ResultRow).length : ℚ) * 100 :=
  ⟨by decide, evaluate_empty_and_accuracy_formula.2.2 [rowFever] (by decide)⟩

/-- C6: any batch of exactly 3 records with exactly 2 matched yields
`total_records = 3`, `correctly_matched_records = 2`,
`incorrectly_matched_records = 1`, and accuracy `200/3`, which rounded to
two decimals is `66.67`. -/
theorem evaluate_three_records_two_matched (b : List ResultRow)
    (h3 : b.length = 3) (h2 : b.countP (fun r => rowMatched r) = 2) :
    evaluate_extraction b
      = { accuracy := 200/3, total_records := 3,
          correctly_matched_records := some 2,
          incorrectly_matched_records := some 1 }
    ∧ roundTo2 (evaluate_extraction b).accuracy = 6667/100 := by
  have hmain : evaluate_extraction b
      = { accuracy := 200/3, total_records := 3,
          correctly_matched_records := some 2,
          incorrectly_matched_records := some 1 } := by
    rw [evaluate_extraction]
    simp only [h3, h2]
    norm_num
  refine ⟨hmain, ?_⟩
  rw [hmain]
  have hr : round ((20000/3 : ℚ)) = 6667 := by
    rw [round_eq]
    norm_num
  rw [roundTo2]
  norm_num [hr]

/-- Witness for the C6 theorem: a concrete batch of 3 records, of which
exactly the first two are matched. -/
theorem evaluate_three_records_two_matched_witness :
    ([rowPneu, rowEpis, rowFever] : List ResultRow).length = 3
    ∧ List.countP (fun r => rowMatched r) [rowPneu, rowEpis, rowFever] = 2
    ∧ evaluate_extraction [rowPneu, rowEpis, rowFever]
        = { accuracy := 200/3, total_records := 3,
            correctly_matched_records := some 2,
            incorrectly_matched_records := some 1 } :=
  ⟨by decide, by decide,
    (evaluate_three_records_two_matched [rowPneu, rowEpis, rowFever]
      (by decide) (by decide)).1⟩

/-- C8 counterexample: on the empty batch the returned dictionary carries
only `accuracy` and `total_records`; the two count fields are absent
(`none`), so the metrics record does not contain all four fields. -/
theorem evaluate_empty_batch_missing_fields :
    evaluate_extraction ([] : List ResultRow)
      = { accuracy := 0, total_records := 0,
          correctly_matched_records := none,
          incorrectly_matched_records := none } := rfl

/-- C8 as amended: on every non-empty batch all four fields are present,
the two counts sum to `total_records`, and the accuracy lies between 0
and 100. -/
theorem evaluate_nonempty_metrics_invariants (b : List ResultRow)
    (hb : b ≠ []) :
    ∃ m u : ℕ,
      (evaluate_extraction b).correctly_matched_records = some m
      ∧ (evaluate_extraction b).incorrectly_matched_records = some u
      ∧ m + u = (evaluate_extraction b).total_records
      ∧ (evaluate_extraction b).total_records = b.length
      ∧ 0 ≤ (evaluate_extraction b).accuracy
      ∧ (evaluate_extraction b).accuracy ≤ 100 := by
  have h : b.length ≠ 0 := by simpa [List.length_eq_zero] using hb
  have hle : (b.countP fun r => rowMatched r) ≤ b.length :=
    List.countP_le_length _
  refine ⟨b.countP fun r => rowMatched r,
    b.length - b.countP fun r => rowMatched r, ?_, ?_, ?_, ?_, ?_, ?_⟩
  · rw [evaluate_extraction]; simp [h]
  · rw [evaluate_extraction]; simp [h]
  · rw [evaluate_extraction]; simp [h]; omega
  · rw [evaluate_extraction]; simp [h]
  · rw [evaluate_extraction]; simp [h]; positivity
  · rw [evaluate_extraction]
    have hlen : (0 : ℚ) < (b.length : ℚ) := by
      exact_mod_cast Nat.pos_of_ne_zero h
    have hc : ((b.countP fun r => rowMatched r : ℕ) : ℚ) ≤ (b.length : ℚ) := by
      exact_mod_cast hle
    simp [h]
    rw [div_le_one hlen]
    exact hc

/-- Witness for the amended C8 theorem at a concrete one-row batch. -/
theorem evaluate_nonempty_metrics_invariants_witness :
    ([rowFever] : List ResultRow) ≠ []
    ∧ ∃ m u : ℕ,
      (evaluate_extraction [rowFever]).correctly_matched_records = some m
      ∧ (evaluate_extraction [rowFever]).incorrectly_matched_records = some u
      ∧ m + u = (evaluate_extraction [rowFever]).total_records
      ∧ (evaluate_extraction [rowFever]).total_records
          = ([rowFever] : List ResultRow).length
      ∧ 0 ≤ (evaluate_extraction [rowFever]).accuracy
      ∧ (evaluate_extraction [rowFever]).accuracy ≤ 100 :=
  ⟨by decide, evaluate_nonempty_metrics_invariants [rowFever] (by decide)⟩

/-- C9: evaluation is a pure, idempotent read of the batch: the
state-passing form returns the batch unchanged, a second evaluation of
that returned batch yields identical metrics, and its metrics agree with
`evaluate_extraction`. -/
theorem evaluate_pure_idempotent (b : List ResultRow) :
    (evaluate_extraction_st b).2 = b
    ∧ (evaluate_extraction_st ((evaluate_extraction_st b).2)).1
        = (evaluate_extraction_st b).1
    ∧ (evaluate_extraction_st b).1 = evaluate_extraction b := by
  have h2 : (evaluate_extraction_st b).2 = b := by
    rw [evaluate_extraction_st]
    by_cases h : b.length = 0
    · simp [h]
    · simp [h, evalRows_eq]
  refine ⟨h2, by rw [h2], ?_⟩
  rw [evaluate_extraction_st, evaluate_extraction]
  by_cases h : b.length = 0
  · simp [h]
  · simp [h, evalRows_eq]
